import Mathlib

/-!
Verification development for the github-trending repository.

The Python sources under src/ are shallowly embedded as Lean definitions:

* pure functions become Lean functions over String / Int / Rat
  (Python floats are idealized as exact rationals);
* fallible code returns Except PyErr, with PyErr naming the Python
  exception class that would be raised;
* stateful components (RateLimiter, TokenBucket, AICache) become explicit
  state passing, with the wall clock passed explicitly as a rational number;
* external collaborators (BeautifulSoup DOM queries, the json.loads decoder,
  the LLM transport) are passed in as explicit function arguments, so that
  the theorems quantify over every possible collaborator behavior.

Each claim theorem carries a doc comment naming the claim it settles.
-/

/-- Python exceptions that the embedded code can raise. -/
inductive PyErr where
  /-- ValueError, e.g. from float() or int() on a malformed literal. -/
  | valueError : PyErr
  /-- json.JSONDecodeError raised by json.loads. -/
  | jsonDecodeError : PyErr
  /-- AttributeError, e.g. calling .get on a non-dict value. -/
  | attributeError : PyErr
  /-- pydantic ValidationError naming the offending field. -/
  | validationError (field : String) : PyErr
  /-- UnboundLocalError: a local variable referenced before assignment. -/
  | unboundLocal (var : String) : PyErr
  /-- Any exception escaping an LLM transport call. -/
  | transportError (msg : String) : PyErr
  /-- Model artifact: recursion fuel exhausted (the Python loop would still
      be running at this point; no real exception corresponds to it). -/
  | fuelOut : PyErr
deriving DecidableEq, Repr

namespace Py

/-- Python str.strip(chars): remove leading and trailing characters that are
    members of chars. -/
def stripChars (chars : List Char) (s : String) : String :=
  let l := s.data.dropWhile (fun c => chars.contains c)
  String.mk ((l.reverse.dropWhile (fun c => chars.contains c)).reverse)

/-- Python str.strip() with no argument: remove leading and trailing
    whitespace (ASCII whitespace; exotic Unicode spaces are not modelled). -/
def stripWs (s : String) : String :=
  String.mk (((s.data.dropWhile Char.isWhitespace).reverse.dropWhile
    Char.isWhitespace).reverse)

/-- Value of a nonempty run of decimal digit characters. -/
def digitsToNat (cs : List Char) : Nat :=
  cs.foldl (fun acc c => acc * 10 + (c.toNat - 48)) 0

/-- Python int(s) on an already-stripped string: optional sign followed by a
    nonempty digit run; none models the ValueError raised otherwise. -/
def pyIntOfString (s : String) : Option Int :=
  let digitsOnly : List Char → Option Nat := fun cs =>
    if cs ≠ [] ∧ cs.all Char.isDigit then some (digitsToNat cs) else none
  match s.data with
  | [] => none
  | c :: cs =>
    if c == '-' then (digitsOnly cs).map (fun n => -(n : Int))
    else if c == '+' then (digitsOnly cs).map (fun n => (n : Int))
    else (digitsOnly (c :: cs)).map (fun n => (n : Int))

/-- Python int(x) applied to a nonnegative-or-negative real value:
    truncation toward zero. -/
def truncToInt (q : ℚ) : Int :=
  if 0 ≤ q then q.floor else -((-q).floor)

/-- Python float(s) on an unsigned plain-decimal literal: valid iff every
    character is a digit or a dot, the string holds at least one digit, and
    at most one dot; none models the ValueError otherwise. The numeric
    value is idealized as an exact rational (the source computes in
    IEEE-754 doubles). -/
def floatOfDigitsDots (s : String) : Option ℚ :=
  let cs := s.data
  if cs.all (fun c => c.isDigit || c == '.') ∧
      (cs.filter (fun c => c == '.')).length ≤ 1 ∧ cs.any Char.isDigit then
    let intPart := cs.takeWhile (fun c => c ≠ '.')
    let fracPart := cs.drop (intPart.length + 1)
    some ((digitsToNat intPart : ℚ) +
      (digitsToNat fracPart : ℚ) / (10 ^ fracPart.length))
  else none

end Py

namespace Scraper

/-- Model of TrendingParser._parse_number (src/src/scraper/parser.py).

    Source steps:
    1. text = text.strip().replace(",", "")
    2. k_match = re.match of a leading digits-and-dots group followed by a
       case-insensitive k; on a match, return int(float(group) * 1000) —
       note float() is not guarded, so a group such as "." or "1.2.3"
       raises ValueError out of the function;
    3. otherwise return int(text), with ValueError caught and mapped to 0.

    The regex match is modelled directly: the greedy leading run of digit or
    dot characters, which matches exactly when that run is nonempty and the
    character right after it is k or K (no shorter run can be followed by k,
    because every character of the run is a digit or a dot). -/
def parseNumber (text : String) : Except PyErr Int :=
  let t := String.mk ((Py.stripWs text).data.filter (fun c => c ≠ ','))
  let run := t.data.takeWhile (fun c => c.isDigit || c == '.')
  let rest := t.data.drop run.length
  if run ≠ [] ∧ (rest.head? = some 'k' ∨ rest.head? = some 'K') then
    match Py.floatOfDigitsDots (String.mk run) with
    | some q => .ok (Py.truncToInt (q * 1000))
    | none => .error .valueError
  else
    match Py.pyIntOfString t with
    | some n => .ok n
    | none => .ok 0

/-- State of a RateLimiter instance (src/src/scraper/limiter.py).
    _last_request_time is initialized to 0 by __init__. -/
structure RateLimiter where
  min_delay : ℚ
  max_delay : ℚ
  last_request_time : ℚ
deriving DecidableEq, Repr

/-- Model of RateLimiter.acquire. now is the wall clock when the call reads
    time.time() (inside the lock); delay is the value random.uniform drew
    from [min_delay, max_delay]. Returns (value returned, state after the
    call, wall clock when the call returns).

    Mirrors the source exactly: on the sleep branch the function sleeps
    wait_time = delay - elapsed and returns it WITHOUT updating
    _last_request_time; only the no-sleep branch writes the timestamp. -/
def RateLimiter.acquire (st : RateLimiter) (now delay : ℚ) :
    ℚ × RateLimiter × ℚ :=
  let elapsed := now - st.last_request_time
  if elapsed < delay then
    (delay - elapsed, st, now + (delay - elapsed))
  else
    (0, { st with last_request_time := now }, now)

/-- Tight sequential caller: each acquire starts the moment the previous one
    returns. delays lists the successive random.uniform draws. Returns, per
    call, (start time, value returned, return time). -/
def RateLimiter.acquireRun (st : RateLimiter) (t : ℚ) :
    List ℚ → List (ℚ × ℚ × ℚ)
  | [] => []
  | d :: ds =>
    let r := st.acquire t d
    (t, r.1, r.2.2) :: RateLimiter.acquireRun r.2.1 r.2.2 ds

/-- State of a TokenBucket (src/src/scraper/limiter.py). __init__ sets
    tokens = capacity and last_time to the construction instant. -/
structure TokenBucket where
  rate : ℚ
  capacity : ℚ
  tokens : ℚ
  last_time : ℚ
deriving DecidableEq, Repr

/-- Model of TokenBucket.consume: refill up to capacity at the configured
    rate for the elapsed time, then take n tokens if the balance suffices. -/
def TokenBucket.consume (st : TokenBucket) (now : ℚ) (n : ℚ) :
    Bool × TokenBucket :=
  let toks := min st.capacity (st.tokens + (now - st.last_time) * st.rate)
  let st1 : TokenBucket := { st with tokens := toks, last_time := now }
  if n ≤ toks then (true, { st1 with tokens := toks - n }) else (false, st1)

/-- Loop body of TokenBucket.wait_for_token. waitVar models the Python local
    wait_time, unassigned (none) until the loop body first runs. When
    consume succeeds, the source executes return wait_time: if the local was
    never assigned — the very first consume succeeded — Python raises
    UnboundLocalError, modelled here exactly. fuel bounds the spin loop.
    Returns (value returned, state after, return time). -/
def TokenBucket.waitForTokenGo (st : TokenBucket) (now : ℚ) (n : ℚ)
    (waitVar : Option ℚ) : Nat → Except PyErr (ℚ × TokenBucket × ℚ)
  | 0 => .error .fuelOut
  | fuel + 1 =>
    let r := st.consume now n
    if r.1 then
      match waitVar with
      | none => .error (.unboundLocal "wait_time")
      | some w => .ok (w, r.2, now)
    else
      let w := (n - r.2.tokens) / st.rate
      TokenBucket.waitForTokenGo r.2 (now + max (1 / 10) w) n (some w) fuel

/-- Model of TokenBucket.wait_for_token(n) entered at wall clock now. -/
def TokenBucket.waitForToken (st : TokenBucket) (now : ℚ) (n : ℚ)
    (fuel : Nat) : Except PyErr (ℚ × TokenBucket × ℚ) :=
  TokenBucket.waitForTokenGo st now n none fuel

/-- Record assembled by the listing parser, mirroring the Repository pydantic
    model (src/src/models/repository.py). The capture timestamp field
    (default_factory datetime.now, never read by the parser or the claims)
    is omitted from the model. -/
structure Repository where
  repo_name : String
  description : String := ""
  language : String := ""
  stars : Int := 0
  forks : Int := 0
  today_stars : Int := 0
  contributors : List String := []
  period : String := "daily"
  url : String := ""
deriving DecidableEq, Repr

/-- A hyperlink element as the identity extractor consumes it: only the href
    attribute matters, link.get("href", "") being its sole read. -/
structure Link where
  href : String
deriving DecidableEq, Repr

/-- The three CSS selectors _extract_repo_name tries, in source order:
    h2 a[href], then h1 a[href], then any a whose href starts with a
    slash. -/
inductive LinkSelector where
  | h2Link : LinkSelector
  | h1Link : LinkSelector
  | rootLink : LinkSelector
deriving DecidableEq, Repr

/-- One candidate repository entry (a BeautifulSoup Tag from
    _find_repo_articles), abstracted to the queries the field extractors run
    on it. The DOM and the CSS engine are external library state, so an
    Article carries, as oracle fields, the result of select_one for each
    identity selector and the outcome of each non-identity private extractor
    (each of which traverses library objects and may raise on adversarial
    documents; an Except error models such a raise). -/
structure Article where
  selectOne : LinkSelector → Option Link
  descriptionResult : Except PyErr String
  languageResult : Except PyErr (String × Option String)
  statsResult : Except PyErr (Int × Int × Int)
  contributorsResult : Except PyErr (List String)

/-- Config.GITHUB_BASE_URL. -/
def githubBaseUrl : String := "https://github.com"

/-- Python str.split for a one-character separator, over char lists:
    "a//b" gives ["a", "", "b"], "" gives [""]. -/
def splitCharAux (sep : Char) : List Char → List Char → List (List Char)
  | [], acc => [acc.reverse]
  | c :: cs, acc =>
    if c == sep then acc.reverse :: splitCharAux sep cs []
    else splitCharAux sep cs (c :: acc)

/-- Python str.split(sep) for a one-character separator. -/
def splitChar (sep : Char) (cs : List Char) : List (List Char) :=
  splitCharAux sep cs []

/-- urllib.parse.urljoin for the href shapes a listing page link carries: an
    absolute http(s) URL passes through, a protocol-relative reference
    (//host/...) takes the scheme of the base (always https here, the base
    being Config.GITHUB_BASE_URL), a root-relative path is appended to the
    base, and any other relative reference is joined with a slash (the base
    is the bare origin, so no base path resolution arises). -/
def urljoin (base href : String) : String :=
  if "http://".data.isPrefixOf href.data ∨ "https://".data.isPrefixOf href.data
  then href
  else if "//".data.isPrefixOf href.data then "https:" ++ href
  else if "/".data.isPrefixOf href.data then base ++ href
  else base ++ "/" ++ href

/-- Per-selector step of _extract_repo_name: the selector must find a link,
    href.strip("/ ") is split on "/" and the first two segments taken; with
    exactly two entries the pair (seg0/seg1, urljoin(base, href)) results.
    Note the source checks only len(repo_path) == 2, not that the segments
    are nonempty. -/
def selectorYields (a : Article) (sel : LinkSelector) : Option (String × String) :=
  match a.selectOne sel with
  | none => none
  | some link =>
    match (splitChar '/' (Py.stripChars ['/', ' '] link.href).data).take 2 with
    | [s0, s1] =>
      some (String.mk s0 ++ "/" ++ String.mk s1, urljoin githubBaseUrl link.href)
    | _ => none

/-- Model of TrendingParser._extract_repo_name: try the selectors in source
    order; a selector whose link does not produce two path segments falls
    through to the next selector; ("", "") when every selector fails. -/
def extractRepoNameGo (a : Article) : List LinkSelector → String × String
  | [] => ("", "")
  | sel :: rest =>
    match selectorYields a sel with
    | some r => r
    | none => extractRepoNameGo a rest

/-- _extract_repo_name over the full selector list of the source. -/
def extractRepoName (a : Article) : String × String :=
  extractRepoNameGo a [.h2Link, .h1Link, .rootLink]

/-- Model of TrendingParser._parse_repo_article: identity first — an empty
    repo name returns None before any other field is extracted — then the
    remaining extractors run, any raise propagating to the caller. -/
def parseRepoArticle (a : Article) (period : String) :
    Except PyErr (Option Repository) :=
  let rn := extractRepoName a
  if rn.1 = "" then .ok none
  else
    match a.descriptionResult, a.languageResult, a.statsResult,
        a.contributorsResult with
    | .ok description, .ok lang, .ok stats, .ok contributors =>
      .ok (some
        { repo_name := rn.1
          description := description
          language := lang.1
          stars := stats.1
          forks := stats.2.1
          today_stars := stats.2.2
          contributors := contributors
          period := period
          url := if rn.2 = "" then githubBaseUrl ++ "/" ++ rn.1 else rn.2 })
    | .error e, _, _, _ => .error e
    | _, .error e, _, _ => .error e
    | _, _, .error e, _ => .error e
    | _, _, _, .error e => .error e

/-- Model of TrendingParser.parse: iterate the candidates from
    _find_repo_articles (passed in as the already-queried list), run each
    through _parse_repo_article inside try/except, keep the result only when
    it is a repository with a truthy repo_name, and skip the candidate on
    any exception. -/
def parse (articles : List Article) (period : String) : List Repository :=
  match articles with
  | [] => []
  | a :: rest =>
    match parseRepoArticle a period with
    | .error _ => parse rest period
    | .ok none => parse rest period
    | .ok (some r) =>
      if r.repo_name = "" then parse rest period else r :: parse rest period

/-- A well-formed entry, as the spec uses the term: a candidate whose field
    extraction completes without raising and which resolves a (truthy)
    identity; its record is the one the loop keeps. -/
def wellFormedRecord (period : String) (a : Article) : Option Repository :=
  match parseRepoArticle a period with
  | .ok (some r) => if r.repo_name = "" then none else some r
  | _ => none

end Scraper

namespace AI

/-- JSON values as json.loads produces them. Python numbers (int and float
    alike) are idealized as exact rationals. -/
inductive Json where
  | null : Json
  | bool (b : Bool) : Json
  | num (q : ℚ) : Json
  | str (s : String) : Json
  | arr (xs : List Json) : Json
  | obj (fields : List (String × Json)) : Json

/-- The left brace character, written by code point to keep braces out of
    string literals. -/
def braceOpen : Char := Char.ofNat 123

/-- The right brace character. -/
def braceClose : Char := Char.ofNat 125

/-- The backtick character. -/
def backtick : Char := Char.ofNat 96

/-- Python str(v) for the element coercion in _get_list. String and scalar
    renderings follow Python; the rendering of nested containers is
    approximated (no theorem depends on it). -/
def pyStr : Json → String
  | .null => "None"
  | .bool b => if b then "True" else "False"
  | .str s => s
  | .num q => if q.den = 1 then toString q.num else toString q.num ++ "/" ++ toString q.den
  | .arr xs => "[" ++ String.intercalate ", " (xs.map pyStrShallow) ++ "]"
  | .obj _ => String.mk [braceOpen] ++ "..." ++ String.mk [braceClose]
where
  /-- One-level rendering for array elements. -/
  pyStrShallow : Json → String
    | .null => "None"
    | .bool b => if b then "True" else "False"
    | .str s => s
    | .num q => if q.den = 1 then toString q.num else toString q.num ++ "/" ++ toString q.den
    | .arr _ => "[...]"
    | .obj _ => String.mk [braceOpen] ++ "..." ++ String.mk [braceClose]

/-- Python truthiness of a JSON value (the filter in _get_list). -/
def jsonTruthy : Json → Bool
  | .null => false
  | .bool b => b
  | .num q => !(q == 0)
  | .str s => !(s == "")
  | .arr xs => !xs.isEmpty
  | .obj fields => !fields.isEmpty

/-- dict.get(key): first binding of the key, none when absent. -/
def jsonGet (fields : List (String × Json)) (key : String) : Option Json :=
  match fields.find? (fun f => f.1 == key) with
  | none => none
  | some f => some f.2

/-- Python float(s) on a general string: optional surrounding whitespace and
    sign, then a digits-and-dots literal. Exponent, infinity and nan forms
    are not modelled (no input of the development uses them). -/
def pyFloatOfString (s : String) : Option ℚ :=
  let t := Py.stripWs s
  match t.data with
  | '-' :: cs => (Py.floatOfDigitsDots (String.mk cs)).map Neg.neg
  | '+' :: cs => Py.floatOfDigitsDots (String.mk cs)
  | _ => Py.floatOfDigitsDots t

/-- Model of AIResultParser._get_str: a string value is stripped, anything
    else falls back to the default. -/
def getStr (fields : List (String × Json)) (key : String)
    (default : String) : String :=
  match jsonGet fields key with
  | some (.str s) => Py.stripWs s
  | _ => default

/-- Model of AIResultParser._get_list: a list value keeps its truthy
    elements, each coerced to stripped text; anything else gives []. -/
def getList (fields : List (String × Json)) (key : String) : List String :=
  match jsonGet fields key with
  | some (.arr xs) => (xs.filter jsonTruthy).map (fun v => Py.stripWs (pyStr v))
  | _ => []

/-- Model of AIResultParser._get_float: numbers pass through float();
    Python treats bool as an int subclass, so true and false coerce to 1
    and 0; a string goes through float(str) with ValueError mapped to the
    default; everything else gives the default. -/
def getFloat (fields : List (String × Json)) (key : String)
    (default : ℚ) : ℚ :=
  match jsonGet fields key with
  | some (.num q) => q
  | some (.bool b) => if b then 1 else 0
  | some (.str s) =>
    match pyFloatOfString s with
    | some q => q
    | none => default
  | _ => default

/-- Model of AIResultParser._get_bool: native bool passes; a string is true
    exactly for the lowercased tokens true / yes / 1; a number is true when
    nonzero; everything else gives the default. -/
def getBool (fields : List (String × Json)) (key : String)
    (default : Bool) : Bool :=
  match jsonGet fields key with
  | some (.bool b) => b
  | some (.str s) =>
    let l := String.mk (s.data.map Char.toLower)
    l == "true" || l == "yes" || l == "1"
  | some (.num q) => q ≠ 0
  | _ => default

/-- Validated payload of one analysis, the dict _parse_json returns. -/
structure ParsedResult where
  summary : String
  key_features : List String
  tech_stack : List String
  use_cases : List String
  learning_value : String
  score : ℚ
  is_worthwhile : Bool
  reason : String
deriving DecidableEq, Repr

/-- Control-character strip run before every json.loads attempt. -/
def stripControl (s : String) : String :=
  String.mk (s.data.filter
    (fun c => ¬ (c.toNat ≤ 31 ∨ (127 ≤ c.toNat ∧ c.toNat ≤ 159))))

/-- Model of the field validation in AIResultParser._parse_json, applied to
    the value json.loads produced: build the eight fields through the safe
    getters, clamp score with max(0, min(10, score)), and force
    learning_value to medium unless it is exactly high, medium or low.
    A non-dict value raises AttributeError at the first .get call (only
    json.JSONDecodeError is ever caught by the callers). -/
def validatePayload (data : Json) : Except PyErr ParsedResult :=
  match data with
  | .obj fields =>
    let score0 := getFloat fields "score" 5
    let lv0 := getStr fields "learning_value" "medium"
    .ok { summary := getStr fields "summary" ""
          key_features := getList fields "key_features"
          tech_stack := getList fields "tech_stack"
          use_cases := getList fields "use_cases"
          learning_value :=
            if lv0 = "high" ∨ lv0 = "medium" ∨ lv0 = "low" then lv0
            else "medium"
          score := max 0 (min 10 score0)
          is_worthwhile := getBool fields "is_worthwhile" false
          reason := getStr fields "reason" "" }
  | _ => .error .attributeError

/-- Model of AIResultParser._parse_json given the external json.loads
    decoder: strip control characters, decode (none models
    json.JSONDecodeError), then validate. -/
def tryParseJson (loads : String → Option Json) (s : String) :
    Except PyErr ParsedResult :=
  match loads (stripControl s) with
  | none => .error .jsonDecodeError
  | some data => validatePayload data

/-- Leading-triple-backtick test. -/
def startsWithTicks (cs : List Char) : Bool :=
  match cs with
  | a :: b :: c :: _ => a == backtick && b == backtick && c == backtick
  | _ => false

/-- Maximal whitespace skip, the deterministic reading of a greedy
    whitespace-star followed by a non-whitespace literal. -/
def dropWs (cs : List Char) : List Char :=
  cs.dropWhile Char.isWhitespace

/-- Lazy scan for the closing brace of the fenced-block group: walking left
    to right, the first right brace that is followed (after whitespace) by
    three backticks closes the group; acc holds the group so far,
    reversed. -/
def scanLazyClose : List Char → List Char → Option (List Char)
  | _, [] => none
  | acc, c :: rest =>
    if c == braceClose ∧ startsWithTicks (dropWs rest) then
      some ((c :: acc).reverse)
    else scanLazyClose (c :: acc) rest

/-- Fenced-block match attempt at one start position: three backticks, an
    optional json tag (greedy, tried first), whitespace, then a brace-
    delimited group of at least one inner character, closed lazily, then
    whitespace and three closing backticks. -/
def fencedAt (cs : List Char) : Option (List Char) :=
  if startsWithTicks cs then
    let after := cs.drop 3
    let tryFrom : List Char → Option (List Char) := fun ds =>
      match dropWs ds with
      | c0 :: c1 :: rest1 =>
        if c0 == braceOpen then scanLazyClose [c1, c0] rest1 else none
      | _ => none
    if after.take 4 = ['j', 's', 'o', 'n'] then
      match tryFrom (after.drop 4) with
      | some g => some g
      | none => tryFrom after
    else tryFrom after
  else none

/-- Leftmost search for the fenced-block pattern: the regex
    re.search over triple-backtick fences with an optional json tag and a
    lazily matched brace group (parser.py line 28), tried at each start
    position left to right. -/
def fencedSearchGo : List Char → Option (List Char)
  | [] => none
  | c :: rest =>
    match fencedAt (c :: rest) with
    | some g => some g
    | none => fencedSearchGo rest

/-- String-level fenced-block search. -/
def fencedSearch (s : String) : Option String :=
  (fencedSearchGo s.data).map String.mk

/-- Leftmost search for a greedy brace-delimited group with at least one
    inner character (the regex of parser.py line 37, DOTALL): the match
    runs from the first left brace to the last right brace, provided at
    least one character lies between them; no match otherwise (a later left
    brace cannot succeed where the first one failed, since the same last
    right brace bounds every attempt). -/
def braceSearch (s : String) : Option String :=
  let cs := s.data
  match cs.findIdx? (fun c => c == braceOpen),
      (cs.reverse.findIdx? (fun c => c == braceClose)) with
  | some p, some ri =>
    let k := cs.length - 1 - ri
    if p + 2 ≤ k then some (String.mk ((cs.drop p).take (k - p + 1)))
    else none
  | _, _ => none

/-- The fixed failure placeholder of AIResultParser._empty_result. The
    summary and reason strings are the Chinese source literals; the spec
    renders the summary in English as "parse failed". -/
def emptyResult : ParsedResult :=
  { summary := "解析失败"
    key_features := []
    tech_stack := []
    use_cases := []
    learning_value := "medium"
    score := 5
    is_worthwhile := false
    reason := "AI 返回结果解析失败" }

/-- Third decode stage of parse_analysis_result: the brace extraction, then
    the placeholder. Only json.JSONDecodeError is caught; any other raise
    from a parse attempt propagates. -/
def braceStage (loads : String → Option Json) (response : String) :
    Except PyErr ParsedResult :=
  match braceSearch response with
  | some g =>
    match tryParseJson loads g with
    | .ok r => .ok r
    | .error .jsonDecodeError => .ok emptyResult
    | .error e => .error e
  | none => .ok emptyResult

/-- Model of AIResultParser.parse_analysis_result: decode strategies in
    source order — the whole text, the fenced block, the brace group — each
    with json.JSONDecodeError caught and the next strategy tried, and the
    fixed placeholder when all fail. -/
def parseAnalysisResult (loads : String → Option Json) (response : String) :
    Except PyErr ParsedResult :=
  match tryParseJson loads response with
  | .ok r => .ok r
  | .error .jsonDecodeError =>
    (match fencedSearch response with
     | some g =>
       match tryParseJson loads g with
       | .ok r => .ok r
       | .error .jsonDecodeError => braceStage loads response
       | .error e => .error e
     | none => braceStage loads response)
  | .error e => .error e

/-- Python value held by the analyzed_at attribute. The field is declared
    Optional[datetime], so pydantic CONSTRUCTION stores a datetime — lax
    mode coerces numeric epoch input to one — while the plain attribute
    assignment analysis.analyzed_at = time.time() at client.py:348 bypasses
    validation (validate_assignment is off) and leaves a raw float. Both
    are idealized to rational epoch seconds but kept apart, because
    json.dump serializes a float and raises TypeError on a datetime, and
    the read-side reconstruction coerces a float back into a datetime. -/
inductive PyTime where
  /-- A datetime.datetime value at the given epoch seconds. -/
  | dt (seconds : ℚ) : PyTime
  /-- A raw float of epoch seconds. -/
  | fl (seconds : ℚ) : PyTime
deriving DecidableEq, Repr

/-- pydantic validation of input bound for the Optional[datetime] field:
    a numeric value is coerced to the datetime of that epoch instant. -/
def pydanticTime : Option PyTime → Option PyTime
  | none => none
  | some (.dt s) => some (.dt s)
  | some (.fl s) => some (.dt s)

/-- The AIAnalysis pydantic model (src/src/models/repository.py). Python
    floats are idealized as rationals; analyzed_at is Optional[datetime]
    but can hold a raw float after the client's unvalidated attribute
    assignment, hence Option PyTime. -/
structure AIAnalysis where
  summary : String
  key_features : List String := []
  tech_stack : List String := []
  use_cases : List String := []
  learning_value : String := "medium"
  score : ℚ := 5
  is_worthwhile : Bool := false
  reason : String := ""
  analyzed_at : Option PyTime := none
  model_used : Option String := none
  analysis_status : String := "pending"
  error_message : Option String := none
deriving DecidableEq, Repr

/-- Field-constraint validation pydantic runs on every AIAnalysis
    construction: score is declared with ge=0 and le=10. -/
def AIAnalysis.validate (a : AIAnalysis) : Except PyErr AIAnalysis :=
  if a.score < 0 ∨ 10 < a.score then .error (.validationError "score")
  else .ok a

/-- Keyword arguments of an AIAnalysis(...) construction: none stands for a
    keyword the call site does not pass. -/
structure AIAnalysisKwargs where
  summary : Option String := none
  key_features : Option (List String) := none
  tech_stack : Option (List String) := none
  use_cases : Option (List String) := none
  learning_value : Option String := none
  score : Option ℚ := none
  is_worthwhile : Option Bool := none
  reason : Option String := none
  analyzed_at : Option (Option PyTime) := none
  model_used : Option (Option String) := none
  analysis_status : Option String := none
  error_message : Option (Option String) := none

/-- pydantic construction AIAnalysis(**kwargs): summary is declared with
    Field(description=...) and NO default, so it is a required field —
    omitting it raises ValidationError; every other field falls back to its
    declared default; a numeric analyzed_at input is coerced to a datetime;
    the score bounds are then checked. -/
def AIAnalysis.pydanticNew (kw : AIAnalysisKwargs) : Except PyErr AIAnalysis :=
  match kw.summary with
  | none => .error (.validationError "summary")
  | some s =>
    AIAnalysis.validate
      { summary := s
        key_features := kw.key_features.getD []
        tech_stack := kw.tech_stack.getD []
        use_cases := kw.use_cases.getD []
        learning_value := kw.learning_value.getD "medium"
        score := kw.score.getD 5
        is_worthwhile := kw.is_worthwhile.getD false
        reason := kw.reason.getD ""
        analyzed_at := pydanticTime (kw.analyzed_at.getD none)
        model_used := kw.model_used.getD none
        analysis_status := kw.analysis_status.getD "pending"
        error_message := kw.error_message.getD none }

/-- Python str(e) on a modelled exception, the text recorded into
    error_message (exact Python rendering approximated; no theorem inspects
    the text beyond passing it through). -/
def pyErrStr : PyErr → String
  | .valueError => "ValueError"
  | .jsonDecodeError => "JSONDecodeError"
  | .attributeError => "AttributeError"
  | .validationError f => "validation error: " ++ f
  | .unboundLocal v => "UnboundLocalError: " ++ v
  | .transportError m => m
  | .fuelOut => "fuel exhausted"

/-- PromptManager system prompt (fixed template text, abbreviated: no
    theorem inspects it). -/
def defaultSystemPrompt : String :=
  "你是一个经验丰富的技术专家，擅长分析和解读开源项目。"

/-- Model of PromptManager.build_analysis_prompt: truncate an over-long
    README at max_length (default 15000) with a truncation marker, then fill
    the analysis template; empty description, language and README fall back
    to their placeholder texts. The fixed template text around the fields is
    abbreviated (no theorem inspects the prompt). -/
def buildAnalysisPrompt (repo_name description language : String)
    (stars today_stars : Int) (readme_content : String) : String :=
  let readme :=
    if 15000 < readme_content.length then
      readme_content.take 15000 ++ "\n\n... (内容已截断)"
    else readme_content
  "请分析以下 GitHub 项目。\n- 仓库名: " ++ repo_name ++
    "\n- 描述: " ++ (if description = "" then "无描述" else description) ++
    "\n- 编程语言: " ++ (if language = "" then "未知" else language) ++
    "\n- 星标数: " ++ toString stars ++
    "\n- 今日新增: " ++ toString today_stars ++
    "\n\n【README 内容】\n" ++ (if readme = "" then "无 README 内容" else readme)

/-- Model of AIClient.analyze_repository (src/src/ai/client.py).

    providerCall is the pluggable LLM transport (self._provider.call), its
    error being any exception the transport raises; loads is the external
    JSON decoder the response interpreter uses; modelName is
    self._provider.model_name when a provider is configured; now is the wall
    clock time.time() reads on success.

    Source shape: build the prompt, construct
    AIAnalysis(analysis_status="analyzing", model_used=...) — note this
    construction happens BEFORE the try block, so any exception it raises
    propagates to the caller — then inside try call the transport, parse
    the response, fill the fields and mark completed; the except block turns
    any exception of the try body into status failed with error_message
    str(e). -/
def analyzeRepository (providerCall : String → String → Except PyErr String)
    (loads : String → Option Json) (modelName : Option String)
    (repo_name description language : String) (stars today_stars : Int)
    (readme_content : String) (system_prompt : Option String) (now : ℚ) :
    Except PyErr AIAnalysis :=
  let prompt := buildAnalysisPrompt repo_name description language stars
    today_stars readme_content
  match AIAnalysis.pydanticNew
      { analysis_status := some "analyzing", model_used := some modelName } with
  | .error e => .error e
  | .ok analysis =>
    let attempt : Except PyErr AIAnalysis :=
      match providerCall prompt (system_prompt.getD defaultSystemPrompt) with
      | .error e => .error e
      | .ok response =>
        match parseAnalysisResult loads response with
        | .error e => .error e
        | .ok parsed =>
          .ok { analysis with
                summary := parsed.summary
                key_features := parsed.key_features
                tech_stack := parsed.tech_stack
                use_cases := parsed.use_cases
                learning_value := parsed.learning_value
                score := parsed.score
                is_worthwhile := parsed.is_worthwhile
                reason := parsed.reason
                analysis_status := "completed"
                analyzed_at := some (.fl now) }
    match attempt with
    | .ok a => .ok a
    | .error e =>
      .ok { analysis with
            analysis_status := "failed"
            error_message := some (pyErrStr e) }

/-- One cache file of the AICache directory: the JSON record set() writes
    (repo_name, cached_at, content_hash, and the model_dump of the
    analysis). JSON round-trip fidelity of these scalar and string-list
    payloads is assumed; the datetime serialization failure is modelled
    separately (jsonDumpable / cacheSet). -/
structure CacheEntry where
  repo_name : String
  cached_at : ℚ
  content_hash : String
  analysis : AIAnalysis
deriving DecidableEq, Repr

/-- The cache directory: one file per cache-key name. A file holds either a
    complete JSON record (some entry) or no decodable record (none): set()
    opens the file with mode "w" — truncating it — before json.dump runs,
    so a dump that raises TypeError midway leaves an unclosed JSON prefix
    that a later json.load rejects. -/
abbrev Store := List (String × Option CacheEntry)

/-- The file written for a key, overwriting an existing file of that name. -/
def storeWrite (st : Store) (k : String) (e : Option CacheEntry) : Store :=
  match st with
  | [] => [(k, e)]
  | (k0, e0) :: rest =>
    if k0 = k then (k, e) :: rest else (k0, e0) :: storeWrite rest k e

/-- The file stored under a key, if the file exists. -/
def storeRead (st : Store) (k : String) : Option (Option CacheEntry) :=
  match st with
  | [] => none
  | (k0, e0) :: rest => if k0 = k then some e0 else storeRead rest k

/-- Model of AICache._get_content_hash: "" for empty content, and an
    8-hex-character md5 prefix otherwise. The digest is treated as an
    injective fingerprint (collision-free idealization) and therefore
    represented by the content itself; every property proved below uses
    only that the fingerprint is deterministic, that it is empty exactly
    for empty content, and that distinct fingerprints give distinct keys. -/
def getContentHash (readme_content : String) : String :=
  if readme_content = "" then "" else readme_content

/-- Model of AICache._get_cache_key: the source hashes the string
    repo_name ++ ":" ++ content_hash with sha256 and keeps 16 hex
    characters; the truncated digest is treated as injective (collision-free
    idealization) and the key represented by its preimage string. -/
def getCacheKey (repo_name content_hash : String) : String :=
  repo_name ++ ":" ++ content_hash

/-- The json.dump serialization check for a model_dump of AIAnalysis: every
    field is a JSON-native string, string list, number, bool or None —
    except a datetime analyzed_at, on which json.dump raises TypeError. -/
def jsonDumpable (a : AIAnalysis) : Bool :=
  match a.analyzed_at with
  | some (.dt _) => false
  | _ => true

/-- Model of AICache.get given a ttl_hours configuration: look up the
    cache file for the derived key; a missing file is a miss; a file with
    no decodable record is a miss (json.load raises, swallowed by the bare
    except); a record whose age exceeds ttl_hours * 3600 seconds is a miss
    and the file is NOT deleted; otherwise the stored payload is rebuilt
    through the AIAnalysis constructor — which coerces a float analyzed_at
    to a datetime and re-checks the score bounds, any exception again
    swallowed into a miss. The unchanged store is returned alongside to
    witness that the read never mutates the directory. -/
def cacheGet (ttl_hours : ℤ) (st : Store) (repo_name readme_content : String)
    (now : ℚ) : Option AIAnalysis × Store :=
  let key := getCacheKey repo_name (getContentHash readme_content)
  match storeRead st key with
  | none => (none, st)
  | some none => (none, st)
  | some (some entry) =>
    if (ttl_hours : ℚ) * 3600 < now - entry.cached_at then (none, st)
    else
      match AIAnalysis.validate
          { entry.analysis with
            analyzed_at := pydanticTime entry.analysis.analyzed_at } with
      | .ok a => (some a, st)
      | .error _ => (none, st)

/-- Model of AICache.set: write the record under the derived key,
    overwriting a prior file. The write opens the file first, then
    json.dump serializes into it: an analysis json.dump cannot serialize
    (datetime analyzed_at) raises TypeError midway, swallowed by the bare
    except at cache.py:117, leaving a truncated file with no decodable
    record. -/
def cacheSet (st : Store) (repo_name readme_content : String)
    (analysis : AIAnalysis) (now : ℚ) : Store :=
  let h := getContentHash readme_content
  storeWrite st (getCacheKey repo_name h)
    (if jsonDumpable analysis then
      some { repo_name := repo_name, cached_at := now, content_hash := h,
             analysis := analysis }
    else none)

end AI

namespace Scraper

/-- The predicate the C8 claim states for strategy success: the link target,
    stripped of surrounding slashes and spaces, yields two NONEMPTY path
    segments. -/
def hrefTwoNonemptySegments (href : String) : Bool :=
  match (splitChar '/' (Py.stripChars ['/', ' '] href).data).take 2 with
  | [s0, s1] => !s0.isEmpty && !s1.isEmpty
  | _ => false

/-- Entry fragment whose only link, found by the first selector, carries
    href "/a//b": after stripping, the path splits into segments "a" and ""
    (the second empty) — the C8 counterexample input. -/
def badHrefArticle : Article :=
  { selectOne := fun sel =>
      match sel with
      | .h2Link => some ⟨"/a//b"⟩
      | .h1Link => none
      | .rootLink => none
    descriptionResult := .ok ""
    languageResult := .ok ("", none)
    statsResult := .ok (0, 0, 0)
    contributorsResult := .ok [] }

/-- Entry fragment no identity selector matches. -/
def emptyArticle : Article :=
  { selectOne := fun _ => none
    descriptionResult := .ok ""
    languageResult := .ok ("", none)
    statsResult := .ok (0, 0, 0)
    contributorsResult := .ok [] }

/-- Well-formed entry fragment used by concrete parse evaluations. -/
def goodArticle : Article :=
  { selectOne := fun sel =>
      match sel with
      | .rootLink => some ⟨"/octocat/hello"⟩
      | _ => none
    descriptionResult := .ok "A sample project for demonstrations"
    languageResult := .ok ("Python", none)
    statsResult := .ok (1234, 56, 78)
    contributorsResult := .ok ["https://avatars.example/u/1"] }

/-- Malformed entry fragment whose description extraction raises (an
    adversarial document making the library traversal fail). -/
def raisingArticle : Article :=
  { selectOne := fun sel =>
      match sel with
      | .rootLink => some ⟨"/owner/repo"⟩
      | _ => none
    descriptionResult := .error .attributeError
    languageResult := .ok ("", none)
    statsResult := .ok (0, 0, 0)
    contributorsResult := .ok [] }

end Scraper

namespace AI

/-- Payload builder for the C9 evaluations: a JSON object carrying a
    summary, a score value and a learning_value value. -/
def c9Payload (score lv : Json) : Json :=
  .obj [("summary", .str "s"), ("score", score), ("learning_value", lv)]

/-- Expected validated record for a c9Payload: clamped score and
    substituted tier, every other field at its default. -/
def c9Result (score : ℚ) (lv : String) : ParsedResult :=
  { summary := "s"
    key_features := []
    tech_stack := []
    use_cases := []
    learning_value := lv
    score := score
    is_worthwhile := false
    reason := "" }

/-- Analysis value used by the cache witnesses: a bare pydantic-valid
    record (its analyzed_at is None). -/
def sampleAnalysis : AIAnalysis :=
  { summary := "a sample summary" }

/-- Analysis carrying a datetime completion timestamp — the shape every
    pydantic-constructed value with a non-None analyzed_at has. -/
def dtAnalysis : AIAnalysis :=
  { summary := "a sample summary", analyzed_at := some (.dt 12345) }

/-- Analysis carrying a raw float timestamp, as the client's unvalidated
    attribute assignment at client.py:348 produces. -/
def flAnalysis : AIAnalysis :=
  { summary := "a sample summary", analyzed_at := some (.fl 12345) }

end AI

/-- C1: the claim asserts that every invocation of
    AIClient.analyze_repository returns a well-formed AnalysisResult and
    never lets an exception propagate, failures being reported through
    status and error_message. The code contradicts this on every call: the
    AIAnalysis(analysis_status="analyzing", model_used=...) construction at
    client.py line 323 sits BEFORE the try block and omits the required
    summary field (repository.py line 11 declares summary with a
    default-free Field), so pydantic raises ValidationError out of the call
    for every input and every transport behavior. -/
theorem c1_analyze_repository_raises_on_every_call
    (providerCall : String → String → Except PyErr String)
    (loads : String → Option AI.Json) (modelName : Option String)
    (repo_name description language : String) (stars today_stars : Int)
    (readme_content : String) (system_prompt : Option String) (now : ℚ) :
    AI.analyzeRepository providerCall loads modelName repo_name description
        language stars today_stars readme_content system_prompt now =
      .error (.validationError "summary") := rfl

/-- C3: the claim asserts that the gap between the starts of EVERY pair of
    consecutive acquire() calls with bounds [1.0, 1.0] is at least 1.0
    seconds. The code violates it: acquire updates _last_request_time only
    on the no-sleep branch, so after a call that slept, the next caller sees
    a stale timestamp and passes with no wait. In the sequential trace below
    (initial state, first call at t = 100, every uniform draw equal to 1)
    the third and the fourth calls both start at t = 101 — a zero gap — and
    the second and third acquisitions both complete at t = 101. -/
theorem c3_consecutive_acquire_zero_gap :
    (Scraper.RateLimiter.acquireRun ⟨1, 1, 0⟩ 100 [1, 1, 1, 1]).map
        (fun r => r.1) = [100, 100, 101, 101] ∧
    (Scraper.RateLimiter.acquireRun ⟨1, 1, 0⟩ 100 [1, 1, 1, 1]).map
        (fun r => r.2.2) = [100, 101, 101, 102] := by
  with_unfolding_all decide

/-- C6: the claim asserts _parse_number returns the equivalent integer on
    well-formed inputs and returns 0 — never raising — on any unparseable
    text. The well-formed cases hold (conjuncts two to four), but the
    never-raises half fails: on ".k" the k-suffix regex matches with group
    ".", and the unguarded float(".") raises ValueError out of the
    function. -/
theorem c6_parse_number_raises_on_dot_k :
    Scraper.parseNumber ".k" = .error .valueError ∧
    Scraper.parseNumber "1,234" = .ok 1234 ∧
    Scraper.parseNumber "342" = .ok 342 ∧
    Scraper.parseNumber "1.2k" = .ok 1200 ∧
    Scraper.parseNumber "abc" = .ok 0 :=
  ⟨rfl, rfl, rfl, by with_unfolding_all rfl, rfl⟩

/-- C7: the claim asserts wait_for_token(n) returns normally whenever the
    bucket already holds at least n tokens, without sleeping rather than
    failing. The code fails in exactly that case: when the first consume
    succeeds the loop body never runs, the local wait_time is never
    assigned, and the trailing return wait_time raises UnboundLocalError.
    Evaluated here on a fresh TokenBucket(rate=1, capacity=10) asked for
    one token at its construction instant. -/
theorem c7_wait_for_token_unbound_local :
    Scraper.TokenBucket.waitForToken ⟨1, 10, 10, 0⟩ 0 1 5 =
      .error (.unboundLocal "wait_time") := by
  with_unfolding_all rfl

/-- Helper: the parse loop computes exactly a filterMap of the
    well-formed-record map over the candidate list. -/
theorem Scraper.parse_eq_filterMap (articles : List Scraper.Article)
    (period : String) :
    Scraper.parse articles period =
      articles.filterMap (Scraper.wellFormedRecord period) := by
  induction articles with
  | nil => rfl
  | cons a rest ih =>
    simp only [Scraper.parse, List.filterMap_cons, Scraper.wellFormedRecord]
    cases h : Scraper.parseRepoArticle a period with
    | error e => simp [h, ih]
    | ok o =>
      cases o with
      | none => simp [h, ih]
      | some r =>
        by_cases hr : r.repo_name = "" <;> simp [h, hr, ih]

/-- C5: parse returns, in document order, exactly the records of the
    well-formed entries (never raising, the model being a total function
    into the record list); a document with no matching entry candidates
    yields the empty list; and a malformed candidate — one that raises
    during extraction or fails to resolve identity — is skipped without
    affecting the records of the other entries. -/
theorem c5_parse_exactly_wellformed (articles : List Scraper.Article)
    (period : String) :
    Scraper.parse articles period =
      articles.filterMap (Scraper.wellFormedRecord period) ∧
    Scraper.parse ([] : List Scraper.Article) period = [] ∧
    (∀ xs ys : List Scraper.Article, ∀ bad : Scraper.Article,
      Scraper.wellFormedRecord period bad = none →
      Scraper.parse (xs ++ bad :: ys) period =
        Scraper.parse (xs ++ ys) period) := by
  refine ⟨Scraper.parse_eq_filterMap articles period, rfl, ?_⟩
  intro xs ys bad hb
  rw [Scraper.parse_eq_filterMap, Scraper.parse_eq_filterMap]
  simp [List.filterMap_append, List.filterMap_cons, hb]

/-- Witness for C5: a raising candidate between two well-formed ones is
    skipped without affecting the batch. -/
theorem c5_witness :
    Scraper.wellFormedRecord "daily" Scraper.raisingArticle = none ∧
    Scraper.parse
        ([Scraper.goodArticle] ++ Scraper.raisingArticle ::
          [Scraper.goodArticle]) "daily" =
      Scraper.parse ([Scraper.goodArticle] ++ [Scraper.goodArticle])
        "daily" :=
  ⟨by decide,
    (c5_parse_exactly_wellformed [] "daily").2.2 [Scraper.goodArticle]
      [Scraper.goodArticle] Scraper.raisingArticle (by decide)⟩

/-- C8 counterexample: the claim asserts a strategy succeeds only when the
    link target yields two NONEMPTY path segments and that otherwise the
    entry is dropped. On the concrete fragment whose only link carries href
    "/a//b" — second path segment empty, so by the claim the entry should
    be dropped — the source accepts the pair anyway (it checks only
    len(repo_path) == 2), extracting repo name "a/" and keeping the
    entry. -/
theorem c8_counterexample :
    Scraper.badHrefArticle.selectOne .h2Link = some ⟨"/a//b"⟩ ∧
    Scraper.badHrefArticle.selectOne .h1Link = none ∧
    Scraper.badHrefArticle.selectOne .rootLink = none ∧
    Scraper.hrefTwoNonemptySegments "/a//b" = false ∧
    Scraper.extractRepoName Scraper.badHrefArticle =
      ("a/", "https://github.com/a//b") ∧
    Scraper.wellFormedRecord "daily" Scraper.badHrefArticle =
      some { repo_name := "a/", url := "https://github.com/a//b" } := by
  refine ⟨rfl, rfl, rfl, by decide, by decide, by decide⟩

/-- C8 as amended: identity extraction tries the ordered selector patterns
    and succeeds with the first strategy whose link target, stripped of
    surrounding slashes and spaces, splits into at least two path segments
    (the segments need not be nonempty), parsed as owner/name; if no
    strategy yields at least two segments, the extraction returns the empty
    pair and the entry is dropped from the final list. -/
theorem c8_identity_extraction_amended (a : Scraper.Article)
    (period : String) :
    (∀ r, Scraper.selectorYields a .h2Link = some r →
      Scraper.extractRepoName a = r) ∧
    (∀ r, Scraper.selectorYields a .h2Link = none →
      Scraper.selectorYields a .h1Link = some r →
      Scraper.extractRepoName a = r) ∧
    (∀ r, Scraper.selectorYields a .h2Link = none →
      Scraper.selectorYields a .h1Link = none →
      Scraper.selectorYields a .rootLink = some r →
      Scraper.extractRepoName a = r) ∧
    (Scraper.selectorYields a .h2Link = none →
      Scraper.selectorYields a .h1Link = none →
      Scraper.selectorYields a .rootLink = none →
      Scraper.extractRepoName a = ("", "") ∧
      Scraper.wellFormedRecord period a = none) := by
  refine ⟨?_, ?_, ?_, ?_⟩ <;> intros <;>
    simp_all [Scraper.extractRepoName, Scraper.extractRepoNameGo,
      Scraper.wellFormedRecord, Scraper.parseRepoArticle]

/-- Witness for C8: a fragment with no identity link resolves to the empty
    pair and its entry is dropped. -/
theorem c8_witness :
    Scraper.extractRepoName Scraper.emptyArticle = ("", "") ∧
    Scraper.wellFormedRecord "daily" Scraper.emptyArticle = none :=
  (c8_identity_extraction_amended Scraper.emptyArticle "daily").2.2.2
    (by decide) (by decide) (by decide)

/-- C9: every successfully parsed payload is validated to a score in
    [0, 10] and a learning-value tier among high / medium / low; the
    concrete score inputs -5, 0, 7.3, 10, 15 map to 0, 0, 7.3, 10, 10; an
    unparseable score string defaults to 5.0; and any tier outside the
    three defined values is substituted with medium. -/
theorem c9_score_clamped_and_tier_valid :
    (∀ data r, AI.validatePayload data = .ok r →
      0 ≤ r.score ∧ r.score ≤ 10 ∧
        (r.learning_value = "high" ∨ r.learning_value = "medium" ∨
          r.learning_value = "low")) ∧
    AI.validatePayload (AI.c9Payload (.num (-5)) (.str "high")) =
      .ok (AI.c9Result 0 "high") ∧
    AI.validatePayload (AI.c9Payload (.num 0) (.str "high")) =
      .ok (AI.c9Result 0 "high") ∧
    AI.validatePayload (AI.c9Payload (.num 7.3) (.str "high")) =
      .ok (AI.c9Result 7.3 "high") ∧
    AI.validatePayload (AI.c9Payload (.num 10) (.str "high")) =
      .ok (AI.c9Result 10 "high") ∧
    AI.validatePayload (AI.c9Payload (.num 15) (.str "high")) =
      .ok (AI.c9Result 10 "high") ∧
    AI.validatePayload (AI.c9Payload (.str "not a number") (.str "low")) =
      .ok (AI.c9Result 5 "low") ∧
    AI.validatePayload (AI.c9Payload (.num 8) (.str "excellent")) =
      .ok (AI.c9Result 8 "medium") := by
  refine ⟨?_, by with_unfolding_all rfl, by with_unfolding_all rfl,
    by with_unfolding_all rfl, by with_unfolding_all rfl,
    by with_unfolding_all rfl, by with_unfolding_all rfl,
    by with_unfolding_all rfl⟩
  intro data r h
  cases data with
  | obj fields =>
    simp only [AI.validatePayload, Except.ok.injEq] at h
    subst h
    refine ⟨le_max_left 0 _, max_le (by norm_num) (min_le_left 10 _), ?_⟩
    dsimp only
    split
    · next hc => exact hc
    · exact Or.inr (Or.inl rfl)
  | null => simp [AI.validatePayload] at h
  | bool b => simp [AI.validatePayload] at h
  | num q => simp [AI.validatePayload] at h
  | str s => simp [AI.validatePayload] at h
  | arr xs => simp [AI.validatePayload] at h

/-- Witness for C9: the validation bound applied to a concrete parsed
    payload. -/
theorem c9_witness :
    AI.validatePayload (AI.c9Payload (.num 3) (.str "high")) =
      .ok (AI.c9Result 3 "high") ∧
    (0 ≤ (AI.c9Result 3 "high").score ∧ (AI.c9Result 3 "high").score ≤ 10 ∧
      ((AI.c9Result 3 "high").learning_value = "high" ∨
        (AI.c9Result 3 "high").learning_value = "medium" ∨
        (AI.c9Result 3 "high").learning_value = "low")) :=
  ⟨by with_unfolding_all rfl,
    c9_score_clamped_and_tier_valid.1 (AI.c9Payload (.num 3) (.str "high"))
      (AI.c9Result 3 "high") (by with_unfolding_all rfl)⟩

/-- C10: when no decode strategy — the direct parse, the fenced-block
    extraction, the balanced-brace extraction — yields a parseable payload,
    parse_analysis_result returns the fixed failure placeholder: summary
    equal to the parse-failure message (the source literal "解析失败",
    rendered in the spec as "parse failed"), all three lists empty, score
    5.0 and is_worthwhile false. -/
theorem c10_placeholder_on_total_decode_failure
    (loads : String → Option AI.Json) (response : String)
    (h1 : loads (AI.stripControl response) = none)
    (h2 : ∀ g, AI.fencedSearch response = some g →
      loads (AI.stripControl g) = none)
    (h3 : ∀ g, AI.braceSearch response = some g →
      loads (AI.stripControl g) = none) :
    AI.parseAnalysisResult loads response = .ok AI.emptyResult ∧
    AI.emptyResult.summary = "解析失败" ∧
    AI.emptyResult.key_features = [] ∧
    AI.emptyResult.tech_stack = [] ∧
    AI.emptyResult.use_cases = [] ∧
    AI.emptyResult.score = 5 ∧
    AI.emptyResult.is_worthwhile = false := by
  refine ⟨?_, rfl, rfl, rfl, rfl, rfl, rfl⟩
  have ht : AI.tryParseJson loads response = .error .jsonDecodeError := by
    unfold AI.tryParseJson
    rw [h1]
  have hbs : AI.braceStage loads response = .ok AI.emptyResult := by
    unfold AI.braceStage
    cases hb : AI.braceSearch response with
    | none => rfl
    | some g =>
      have hg : AI.tryParseJson loads g = .error .jsonDecodeError := by
        unfold AI.tryParseJson
        rw [h3 g hb]
      dsimp only
      rw [hg]
  unfold AI.parseAnalysisResult
  rw [ht]
  dsimp only
  cases hf : AI.fencedSearch response with
  | none => exact hbs
  | some g =>
    have hg : AI.tryParseJson loads g = .error .jsonDecodeError := by
      unfold AI.tryParseJson
      rw [h2 g hf]
    dsimp only
    rw [hg]
    exact hbs

/-- Witness for C10: a response with no braces and no fences, under a
    decoder that rejects everything. -/
theorem c10_witness :
    (fun _ : String => (none : Option AI.Json))
        (AI.stripControl "no json here") = none ∧
    AI.parseAnalysisResult (fun _ : String => (none : Option AI.Json))
        "no json here" = .ok AI.emptyResult :=
  ⟨rfl,
    (c10_placeholder_on_total_decode_failure
      (fun _ : String => (none : Option AI.Json)) "no json here" rfl
      (fun _ _ => rfl) (fun _ _ => rfl)).1⟩

/-- Helper: reading back the key just written returns the written file. -/
theorem AI.storeRead_write_self (st : AI.Store) (k : String)
    (e : Option AI.CacheEntry) :
    AI.storeRead (AI.storeWrite st k e) k = some e := by
  induction st with
  | nil => simp [AI.storeWrite, AI.storeRead]
  | cons p rest ih =>
    obtain ⟨k0, e0⟩ := p
    by_cases h : k0 = k <;> simp [AI.storeWrite, AI.storeRead, h, ih]

/-- Helper: writing one key leaves reads of a different key unchanged. -/
theorem AI.storeRead_write_ne (st : AI.Store) (k1 k2 : String)
    (e : Option AI.CacheEntry) (h : k1 ≠ k2) :
    AI.storeRead (AI.storeWrite st k1 e) k2 = AI.storeRead st k2 := by
  induction st with
  | nil => simp [AI.storeWrite, AI.storeRead, h]
  | cons p rest ih =>
    obtain ⟨k0, e0⟩ := p
    by_cases h0 : k0 = k1
    · subst h0
      simp [AI.storeWrite, AI.storeRead, h]
    · simp [AI.storeWrite, AI.storeRead, h0, ih]

/-- C2: in the _run_ai_analysis loop, the cache key an entry is stored
    under — set(repo_name, readme, analysis), key input
    (repo_name, md5(readme)[:8]) — differs, for every nonempty readme, from
    the key the loop queries — get(repo_name, ""), key input
    (repo_name, "") — so the stored entry is never returned by that lookup
    (digests idealized as injective fingerprints). -/
theorem c2_loop_lookup_never_sees_stored_entry (st : AI.Store)
    (repo readme : String) (a : AI.AIAnalysis) (tSet tGet : ℚ) (ttl : ℤ)
    (h : readme ≠ "") :
    AI.getCacheKey repo (AI.getContentHash readme) ≠
      AI.getCacheKey repo (AI.getContentHash "") ∧
    (AI.cacheGet ttl (AI.cacheSet st repo readme a tSet) repo "" tGet).1 =
      (AI.cacheGet ttl st repo "" tGet).1 := by
  have hkey : AI.getCacheKey repo (AI.getContentHash readme) ≠
      AI.getCacheKey repo (AI.getContentHash "") := by
    have e1 : AI.getCacheKey repo (AI.getContentHash readme) =
        repo ++ ":" ++ readme := by
      unfold AI.getCacheKey AI.getContentHash
      rw [if_neg h]
    have e2 : AI.getCacheKey repo (AI.getContentHash "") =
        repo ++ ":" ++ "" := rfl
    rw [e1, e2]
    intro he
    apply h
    have hd := congrArg String.data he
    simp only [String.data_append] at hd
    have h2 := List.append_cancel_left hd
    exact congrArg String.mk h2
  refine ⟨hkey, ?_⟩
  simp only [AI.cacheGet, AI.cacheSet]
  rw [AI.storeRead_write_ne _ _ _ _ hkey]
  cases hr : AI.storeRead st (AI.getCacheKey repo (AI.getContentHash "")) with
  | none => rfl
  | some ofile =>
    cases ofile with
    | none => rfl
    | some entry =>
      dsimp only
      split
      · rfl
      · split <;> rfl

/-- Witness for C2: a concrete store round through the loop key pair. -/
theorem c2_witness :
    ("readme text" : String) ≠ "" ∧
    (AI.cacheGet 24
        (AI.cacheSet [] "octocat/hello" "readme text" AI.sampleAnalysis 0)
        "octocat/hello" "" 0).1 =
      (AI.cacheGet 24 ([] : AI.Store) "octocat/hello" "" 0).1 :=
  ⟨by decide,
    (c2_loop_lookup_never_sees_stored_entry [] "octocat/hello"
      "readme text" AI.sampleAnalysis 0 0 24 (by decide)).2⟩

/-- Helper: rebuilding a record whose analyzed_at is None through the
    constructor coercion of the read path gives the record back. -/
theorem AI.rebuild_analyzed_at_none (a : AI.AIAnalysis)
    (h : a.analyzed_at = none) :
    ({ a with analyzed_at := AI.pydanticTime a.analyzed_at } :
      AI.AIAnalysis) = a := by
  obtain ⟨f1, f2, f3, f4, f5, f6, f7, f8, f9, f10, f11, f12⟩ := a
  dsimp only at h
  subst h
  rfl

/-- C4 counterexample: the claim quantifies over every AnalysisResult
    value, but a value carrying a completion timestamp defeats the
    round-trip. A datetime analyzed_at (the shape every pydantic-
    constructed non-None timestamp has) makes json.dump raise TypeError,
    swallowed by set at cache.py:117 — the truncated cache file holds no
    decodable record and the immediate get misses instead of returning the
    value; a float analyzed_at (the client's unvalidated assignment)
    survives the write, but the read-side AIAnalysis(**data)
    reconstruction coerces it to a datetime, so the value get returns
    differs from the stored one in the analyzed_at field. -/
theorem c4_counterexample :
    AI.cacheSet [] "octocat/hello" "readme" AI.dtAnalysis 0 =
      [("octocat/hello:readme", none)] ∧
    (AI.cacheGet 24
        (AI.cacheSet [] "octocat/hello" "readme" AI.dtAnalysis 0)
        "octocat/hello" "readme" 0).1 = none ∧
    (AI.cacheGet 24
        (AI.cacheSet [] "octocat/hello" "readme" AI.flAnalysis 0)
        "octocat/hello" "readme" 0).1 =
      some { AI.flAnalysis with analyzed_at := some (AI.PyTime.dt 12345) } ∧
    (some AI.flAnalysis : Option AI.AIAnalysis) ≠
      some { AI.flAnalysis with
             analyzed_at := some (AI.PyTime.dt 12345) } := by
  refine ⟨by decide, by decide, ?_, by decide⟩
  have hs : AI.cacheSet [] "octocat/hello" "readme" AI.flAnalysis 0 =
      [("octocat/hello:readme",
        some { repo_name := "octocat/hello", cached_at := 0,
               content_hash := "readme", analysis := AI.flAnalysis })] := by
    decide
  have hk : AI.getCacheKey "octocat/hello" (AI.getContentHash "readme") =
      "octocat/hello:readme" := by decide
  have hr : AI.storeRead
      [("octocat/hello:readme",
        some { repo_name := "octocat/hello", cached_at := 0,
               content_hash := "readme", analysis := AI.flAnalysis })]
      "octocat/hello:readme" =
      some (some { repo_name := "octocat/hello", cached_at := 0,
                   content_hash := "readme", analysis := AI.flAnalysis }) := by
    decide
  simp only [AI.cacheGet, hs, hk, hr]
  rw [if_neg (by norm_num)]
  rfl

/-- C4 as amended: for every AnalysisResult value whose analyzed_at field
    is None — the cache cannot round-trip a completion timestamp: a
    datetime one aborts the silently-swallowed write and a float one comes
    back coerced to a datetime (see the counterexample) — set followed by
    get with the same subject and content returns a value equal to the
    stored result in all fields while the TTL has not elapsed; a get at
    write-time + ttl_hours*3600 + ε (ε > 0) is a miss; and neither read
    deletes anything (the returned store is exactly the store the write
    produced). -/
theorem c4_cache_roundtrip_and_expiry (ttl : ℤ) (st : AI.Store)
    (repo content : String) (a : AI.AIAnalysis) (tSet tGet ε : ℚ)
    (h0 : 0 ≤ a.score) (h1 : a.score ≤ 10) (h2 : a.analyzed_at = none) :
    (tGet - tSet ≤ (ttl : ℚ) * 3600 →
      AI.cacheGet ttl (AI.cacheSet st repo content a tSet) repo content
          tGet =
        (some a, AI.cacheSet st repo content a tSet)) ∧
    (0 < ε →
      AI.cacheGet ttl (AI.cacheSet st repo content a tSet) repo content
          (tSet + (ttl : ℚ) * 3600 + ε) =
        (none, AI.cacheSet st repo content a tSet)) := by
  have hd : AI.jsonDumpable a = true := by
    unfold AI.jsonDumpable
    rw [h2]
  have hw := AI.storeRead_write_self st
    (AI.getCacheKey repo (AI.getContentHash content))
    (some { repo_name := repo, cached_at := tSet,
            content_hash := AI.getContentHash content, analysis := a })
  constructor
  · intro hfresh
    simp only [AI.cacheGet, AI.cacheSet, hd, if_true]
    rw [hw]
    dsimp only
    rw [if_neg (not_lt.mpr (by linarith))]
    rw [AI.rebuild_analyzed_at_none a h2]
    simp only [AI.AIAnalysis.validate]
    rw [if_neg (by push_neg; exact ⟨h0, h1⟩)]
  · intro hpos
    simp only [AI.cacheGet, AI.cacheSet, hd, if_true]
    rw [hw]
    dsimp only
    rw [if_pos (by linarith)]

/-- Witness for C4: concrete round-trip and hit before the TTL. -/
theorem c4_witness :
    0 ≤ AI.sampleAnalysis.score ∧ AI.sampleAnalysis.score ≤ 10 ∧
    AI.sampleAnalysis.analyzed_at = none ∧
    AI.cacheGet 24
        (AI.cacheSet [] "octocat/hello" "readme" AI.sampleAnalysis 0)
        "octocat/hello" "readme" 0 =
      (some AI.sampleAnalysis,
        AI.cacheSet [] "octocat/hello" "readme" AI.sampleAnalysis 0) :=
  ⟨by decide, by decide, rfl,
    (c4_cache_roundtrip_and_expiry 24 [] "octocat/hello" "readme"
        AI.sampleAnalysis 0 0 1 (by decide) (by decide) rfl).1
      (by with_unfolding_all decide)⟩
